import Mathlib

set_option autoImplicit false

/-!
Verification of the NotTheNet service-orchestration layer.

Each Python module of the repository that the claims touch is shallowly
embedded below: pure helpers become Lean functions on `List Char` /
`String` / `Int`, config dictionaries become association lists over a
small Python-value type, and effectful operations (socket binds, the
iptables binary, uuid generation, the filesystem) are abstracted into
explicit environment records whose fields stand for the outcomes of
those external calls.
-/

/-! ## Log sanitization (`utils/logging_utils.py`) -/

/-- Characters matched by `_UNSAFE_LOG_PATTERN`, i.e. the regex class
`[\r\n\x00-\x08\x0b\x0c\x0e-\x1f\x7f]` (all C0 controls except TAB, plus DEL). -/
def isBadLogChar (c : Char) : Bool :=
  c.toNat ≤ 8 || c.toNat == 10 || c.toNat == 11 || c.toNat == 12 || c.toNat == 13 ||
    (14 ≤ c.toNat && c.toNat ≤ 31) || c.toNat == 127

/-- Body characters of `_ANSI_ESCAPE_PATTERN` (the class `[0-9;]`). -/
def isAnsiBody (c : Char) : Bool := c.isDigit || c == ';'

/-- Final character of `_ANSI_ESCAPE_PATTERN` (the class `[a-zA-Z]`). -/
def isAnsiFinal (c : Char) : Bool :=
  ('a' ≤ c && c ≤ 'z') || ('A' ≤ c && c ≤ 'Z')

/-- After `ESC [`, consume `[0-9;]*` followed by one `[a-zA-Z]` and return the
remaining input. `none` means the regex does not match at this position. -/
def ansiTail : List Char → Option (List Char)
  | [] => none
  | c :: cs =>
    if isAnsiBody c then ansiTail cs
    else if isAnsiFinal c then some cs
    else none

/-- Worker for `ansiSub`, with a fuel argument for structural recursion.
Every step consumes at least one input character, so fuel equal to the
input length (as supplied by `ansiSub`) never runs out. -/
def ansiSubGo : Nat → List Char → List Char
  | 0, l => l
  | _ + 1, [] => []
  | fuel + 1, '\x1b' :: '[' :: rest =>
    match ansiTail rest with
    | some r => ansiSubGo fuel r
    | none => '\x1b' :: ansiSubGo fuel ('[' :: rest)
  | fuel + 1, c :: cs => c :: ansiSubGo fuel cs

/-- Model of `re.sub(_ANSI_ESCAPE_PATTERN, "", value)`: scan left to right; wherever
`ESC [ [0-9;]* [a-zA-Z]` matches, drop it; otherwise keep the character. -/
def ansiSub (l : List Char) : List Char := ansiSubGo l.length l

/-- Model of `re.sub(_UNSAFE_LOG_PATTERN, "[?]", value)`: every control character in the
class is replaced by the three visible characters `[?]`. -/
def subControl (l : List Char) : List Char :=
  l.flatMap fun c => if isBadLogChar c then ['[', '?', ']'] else [c]

/-- The truncation marker appended by `sanitize_log_string`. -/
def truncationMarker : List Char := "...[truncated]".data

/-- Model of `sanitize_log_string(value, max_length)` from `utils/logging_utils.py`
(for `str` input): strip ANSI escapes, replace the remaining control
characters with `[?]`, then truncate to `max_length` characters plus the
`...[truncated]` marker. -/
def sanitize_log_string (value : String) (max_length : Nat) : String :=
  let v₁ := ansiSub value.data
  let v₂ := subControl v₁
  if v₂.length > max_length then ⟨v₂.take max_length ++ truncationMarker⟩
  else ⟨v₂⟩

/-- Does the ANSI-escape regex match at the very start of the input? -/
def matchAnsiAt : List Char → Bool
  | '\x1b' :: '[' :: rest => (ansiTail rest).isSome
  | _ => false

/-- Scan for an occurrence of the ANSI-escape regex anywhere in the string. -/
def hasAnsiSeq : List Char → Bool
  | [] => false
  | c :: cs => matchAnsiAt (c :: cs) || hasAnsiSeq cs

/-! ## Python values and config dictionaries (`config.py`)

Config values that reach the orchestrator are JSON scalars; `Config` stores
them in nested dicts.  `PyVal` models the scalar values, a section is an
association list, and a config is an association list of sections. -/

inductive PyVal where
  | vInt (n : Int)
  | vBool (b : Bool)
  | vStr (s : String)
  | vNone
  deriving DecidableEq, Repr

/-- Python truthiness of a scalar (`if value:`). -/
def pyTruthy : PyVal → Bool
  | .vInt n => n != 0
  | .vBool b => b
  | .vStr s => !s.isEmpty
  | .vNone => false

/-- Python `str()` of a scalar (used in f-string error messages). -/
def pyStr : PyVal → String
  | .vInt n => toString n
  | .vBool b => if b then "True" else "False"
  | .vStr s => s
  | .vNone => "None"

/-- Model of `digit ('_'? digit)*` — the digit part of a Python integer literal
(single underscores between digits are allowed). -/
def pyDigits (acc : Nat) : List Char → Option Nat
  | [] => some acc
  | '_' :: c :: cs =>
    if c.isDigit then pyDigits (acc * 10 + (c.toNat - 48)) cs else none
  | c :: cs =>
    if c.isDigit then pyDigits (acc * 10 + (c.toNat - 48)) cs else none

/-- Strip leading and trailing whitespace (Python `str.strip()` for the
characters relevant here). -/
def pyStrip (l : List Char) : List Char :=
  ((l.dropWhile Char.isWhitespace).reverse.dropWhile Char.isWhitespace).reverse

/-- Python `int(s)` on a string: optional whitespace, optional sign,
then decimal digits (with underscores between digits). -/
def pyIntOfString (s : String) : Option Int :=
  match pyStrip s.data with
  | '+' :: c :: cs => if c.isDigit then (pyDigits (c.toNat - 48) cs).map Int.ofNat else none
  | '-' :: c :: cs =>
    if c.isDigit then (pyDigits (c.toNat - 48) cs).map (fun n => -(n : Int)) else none
  | c :: cs => if c.isDigit then (pyDigits (c.toNat - 48) cs).map Int.ofNat else none
  | [] => none

/-- Python `int(x)` on a scalar; `none` models the `ValueError`/`TypeError`
raised on non-numeric input. -/
def pyInt : PyVal → Option Int
  | .vInt n => some n
  | .vBool b => some (if b then 1 else 0)
  | .vStr s => pyIntOfString s
  | .vNone => none

/-- Model of `int(x)` where a failure propagates as an exception. -/
def pyIntE (v : PyVal) : Except String Int :=
  match pyInt v with
  | some n => .ok n
  | none => .error "int() conversion failed"

abbrev ConfigSection := List (String × PyVal)

abbrev ConfigDict := List (String × ConfigSection)

/-- Model of `section.get(key, dflt)`. -/
def sectGet (s : ConfigSection) (key : String) (dflt : PyVal) : PyVal :=
  (s.lookup key).getD dflt

/-- Model of `Config.get_section(name)` — missing sections read as `{}`. -/
def cfgSection (c : ConfigDict) (name : String) : ConfigSection :=
  (c.lookup name).getD []

/-- Model of `Config.get(section, key)` (fallback `None`). -/
def cfgGet (c : ConfigDict) (sec key : String) : PyVal :=
  sectGet (cfgSection c sec) key .vNone

/-! ## Validators (`utils/validators.py`)

`validate_ip` delegates to the Python stdlib `ipaddress.ip_address`; that
external parser is abstracted as a predicate `ipOk` supplied by the
environment. -/

/-- Model of `validate_port(port)`: `int()` conversion then the range check
`1 <= p <= 65535`.  The source returns a pair `(ok, value)` with
`ok ↔ value is not None`; the `Option` combines the two. -/
def validate_port (v : PyVal) : Option Int :=
  match pyInt v with
  | some p => if 1 ≤ p ∧ p ≤ 65535 then some p else none
  | none => none

/-- Model of `validate_bind_ip(ip)`: wildcard addresses are allowed verbatim,
anything else goes through `ipaddress.ip_address`. -/
def validate_bind_ip (ipOk : PyVal → Bool) (v : PyVal) : Bool :=
  v == .vStr "0.0.0.0" || v == .vStr "::" || ipOk v

/-- Services whose port is validated when enabled, in source order. -/
def validatedServices : List String :=
  ["http", "https", "smtp", "pop3", "imap", "ftp", "dns"]

/-- Model of `validate_config(config_data)`: bind-IP check, redirect-IP check, then a
port check for every enabled protocol section; all errors are collected. -/
def validate_config (ipOk : PyVal → Bool) (cfg : ConfigDict) : List String :=
  let general := cfgSection cfg "general"
  let e₁ :=
    if validate_bind_ip ipOk (sectGet general "bind_ip" (.vStr "0.0.0.0")) then []
    else ["general.bind_ip is invalid: " ++ pyStr (sectGet general "bind_ip" .vNone)]
  let e₂ :=
    if ipOk (sectGet general "redirect_ip" (.vStr "127.0.0.1")) then []
    else ["general.redirect_ip is invalid: " ++ pyStr (sectGet general "redirect_ip" .vNone)]
  let eSvc := validatedServices.flatMap fun svc =>
    let s := cfgSection cfg svc
    if pyTruthy (sectGet s "enabled" (.vBool false)) then
      match validate_port (sectGet s "port" (.vInt 0)) with
      | some _ => []
      | none => [svc ++ ".port is invalid: " ++ pyStr (sectGet s "port" .vNone)]
    else []
  e₁ ++ e₂ ++ eSvc

/-! ## Service stubs: constructors (`services/*.py`)

Each stub's `__init__` reads its config slice; the `int()` conversions it
performs can raise `ValueError`/`TypeError`, which the orchestrator does not
catch.  The model keeps the `enabled` flag and the port; everything else a
constructor stores (banners, bodies, directories) involves no conversion that
can raise, except the `.strip()` on `response_body_file` noted below. -/

structure StubInfo where
  enabled : Bool
  port : Int
  deriving DecidableEq, Repr

/-- Model of `DNSService.__init__`: `int(port)` (default 53) and `int(ttl)`
(default 300); `enabled` defaults to `True`. -/
def DNSService_init (cfg : ConfigSection) : Except String StubInfo := do
  let port ← pyIntE (sectGet cfg "port" (.vInt 53))
  let _ttl ← pyIntE (sectGet cfg "ttl" (.vInt 300))
  pure ⟨pyTruthy (sectGet cfg "enabled" (.vBool true)), port⟩

/-- Shared body of `HTTPService.__init__` / `HTTPSService.__init__`:
`int(port)`, `int(response_code)`, `int(response_delay_ms or 0)`, and
`config.get("response_body_file", "").strip()` (an `AttributeError` if the
configured value is not a string). -/
def httpLikeInit (dfltPort : Int) (cfg : ConfigSection) : Except String StubInfo := do
  let port ← pyIntE (sectGet cfg "port" (.vInt dfltPort))
  let _code ← pyIntE (sectGet cfg "response_code" (.vInt 200))
  match sectGet cfg "response_body_file" (.vStr "") with
  | .vStr _ => pure ()
  | _ => throw "AttributeError: strip on non-string"
  let dv := sectGet cfg "response_delay_ms" (.vInt 0)
  let _delay ← pyIntE (if pyTruthy dv then dv else .vInt 0)
  pure ⟨pyTruthy (sectGet cfg "enabled" (.vBool true)), port⟩

def HTTPService_init : ConfigSection → Except String StubInfo := httpLikeInit 80

def HTTPSService_init : ConfigSection → Except String StubInfo := httpLikeInit 443

/-- Model of `SMTPService.__init__` / `POP3Service` / `IMAPService` / `FTPService` /
catch-all constructors: a single `int()` on the port field. -/
def portOnlyInit (portKey : String) (dfltPort : Int) (enabledKey : String)
    (enabledDflt : Bool) (cfg : ConfigSection) : Except String StubInfo := do
  let port ← pyIntE (sectGet cfg portKey (.vInt dfltPort))
  pure ⟨pyTruthy (sectGet cfg enabledKey (.vBool enabledDflt)), port⟩

def SMTPService_init : ConfigSection → Except String StubInfo :=
  portOnlyInit "port" 25 "enabled" true

def POP3Service_init : ConfigSection → Except String StubInfo :=
  portOnlyInit "port" 110 "enabled" true

def IMAPService_init : ConfigSection → Except String StubInfo :=
  portOnlyInit "port" 143 "enabled" true

def FTPService_init : ConfigSection → Except String StubInfo :=
  portOnlyInit "port" 21 "enabled" true

def CatchAllTCP_init : ConfigSection → Except String StubInfo :=
  portOnlyInit "tcp_port" 9999 "redirect_tcp" true

def CatchAllUDP_init : ConfigSection → Except String StubInfo :=
  portOnlyInit "udp_port" 9998 "redirect_udp" false

/-! ## Service orchestrator (`service_manager.py`)

`ServiceManager.start` constructs the nine stubs in a fixed order and calls
each stub's `start()`.  A stub's `start()` returns `False` when the stub is
disabled, otherwise its success depends on external conditions (socket bind,
dnslib availability, TLS certs); those externals are the `extOk` oracle.
`ipOk` abstracts `ipaddress.ip_address` for `validate_config`. -/

structure StartEnv where
  ipOk : PyVal → Bool
  extOk : String → Bool

structure StubDef where
  name : String
  sectionName : String
  init : ConfigSection → Except String StubInfo

/-- The nine stubs in the order `ServiceManager.start` creates them. -/
def stubDefs : List StubDef :=
  [⟨"dns", "dns", DNSService_init⟩,
   ⟨"http", "http", HTTPService_init⟩,
   ⟨"https", "https", HTTPSService_init⟩,
   ⟨"smtp", "smtp", SMTPService_init⟩,
   ⟨"pop3", "pop3", POP3Service_init⟩,
   ⟨"imap", "imap", IMAPService_init⟩,
   ⟨"ftp", "ftp", FTPService_init⟩,
   ⟨"catch_tcp", "catch_all", CatchAllTCP_init⟩,
   ⟨"catch_udp", "catch_all", CatchAllUDP_init⟩]

/-- The orchestrator state: the keys of `self._services` (insertion order)
and the `_running` flag. -/
structure SMState where
  services : List String
  running : Bool
  deriving DecidableEq, Repr

/-- Model of `self._services[name] = svc`: dict insertion keeps an existing key's
position and appends a new one. -/
def addKey (l : List String) (k : String) : List String :=
  if k ∈ l then l else l ++ [k]

deriving instance DecidableEq for Except

/-- Result of one `start()` call: the updated state, the journal of stubs
whose `start()` was invoked, the `started` list of the source, and the
return value (`Except` models an escaped exception). -/
structure StartOutcome where
  state : SMState
  invoked : List String
  started : List String
  result : Except String Bool
  deriving DecidableEq, Repr

/-- The per-stub loop of `ServiceManager.start`: construct each stub (an
exception aborts the loop and propagates), call its `start()`, and record
successes in `self._services` and `started`. -/
def runStubs (env : StartEnv) (cfg : ConfigDict) :
    List StubDef → List String → List String → List String →
    List String × List String × List String × Option String
  | [], svcs, inv, strt => (svcs, inv, strt, none)
  | d :: rest, svcs, inv, strt =>
    match d.init (cfgSection cfg d.sectionName) with
    | .error e => (svcs, inv, strt, some e)
    | .ok info =>
      let ok := info.enabled && env.extOk d.name
      runStubs env cfg rest (if ok then addKey svcs d.name else svcs)
        (inv ++ [d.name]) (if ok then strt ++ [d.name] else strt)

/-- The `int()` conversions of `ServiceManager._apply_iptables` (ports of
running services, the DNS port, and the catch-all TCP port); any of them can
raise.  The iptables invocations themselves are external. -/
def applyIptablesChecks (cfg : ConfigDict) (svcs : List String) :
    Except String Unit := do
  let dnsV := cfgGet cfg "dns" "port"
  let _ ← pyIntE (if pyTruthy dnsV then dnsV else .vInt 53)
  for p in [("http", 80), ("https", 443), ("smtp", 25),
            ("pop3", 110), ("imap", 143), ("ftp", 21)] do
    if p.1 ∈ svcs then
      let v := cfgGet cfg p.1 "port"
      let _ ← pyIntE (if pyTruthy v then v else .vInt p.2)
  let _ ← pyIntE (sectGet (cfgSection cfg "catch_all") "tcp_port" (.vInt 9999))
  pure ()

/-- The `if self.config.get("general", "auto_iptables"): self._apply_iptables()`
step of `start()`. -/
def iptResult (cfg : ConfigDict) (svcs : List String) : Except String Unit :=
  if pyTruthy (cfgGet cfg "general" "auto_iptables") then applyIptablesChecks cfg svcs
  else .ok ()

/-- Model of `ServiceManager.start()`: validate (fail closed), start the nine stubs,
optionally run `_apply_iptables`, drop privileges (external), and return
whether at least one stub started.  `require_root_or_warn`, `ensure_certs`,
`drop_privileges` and the `bind_ip` read have no effect on the modelled
state. -/
def smStart (env : StartEnv) (cfg : ConfigDict) (st : SMState) : StartOutcome :=
  if validate_config env.ipOk cfg ≠ [] then
    ⟨st, [], [], .ok false⟩
  else
    match runStubs env cfg stubDefs st.services [] [] with
    | (svcs, inv, strt, some e) => ⟨⟨svcs, st.running⟩, inv, strt, .error e⟩
    | (svcs, inv, strt, none) =>
      match iptResult cfg svcs with
      | .error e => ⟨⟨svcs, st.running⟩, inv, strt, .error e⟩
      | .ok _ => ⟨⟨svcs, decide (strt ≠ [])⟩, inv, strt, .ok (decide (strt ≠ []))⟩

/-- Model of `ServiceManager.stop()`: every stub's `stop()` is attempted with
exceptions swallowed, `self._services` is cleared, iptables rules are
removed, `_running` is reset. -/
def smStop (_st : SMState) : SMState := ⟨[], false⟩

/-- Model of `ServiceManager.status()`: one entry per key of `self._services`, valued
by the stub's `running` property (the `live` oracle). -/
def smStatus (live : String → Bool) (st : SMState) : List (String × Bool) :=
  st.services.map fun n => (n, live n)

/-! ## Orchestrator traces (for the reachable-state claim) -/

inductive SMOp where
  | opStart (env : StartEnv) (cfg : ConfigDict)
  | opStop

def smStep (st : SMState) : SMOp → SMState
  | .opStart env cfg => (smStart env cfg st).state
  | .opStop => smStop st

def smInit : SMState := ⟨[], false⟩

def smRun (ops : List SMOp) : SMState := ops.foldl smStep smInit

/-- Instrumented run: alongside the state, record the ghost journal of every
stub whose `start()` returned `True` since the most recent `stop()` (the
journal is cleared by `stop`, extended by each `start`). -/
def ghostStep (p : SMState × List String) : SMOp → SMState × List String
  | .opStart env cfg =>
    ((smStart env cfg p.1).state, p.2 ++ (smStart env cfg p.1).started)
  | .opStop => (smStop p.1, [])

def runG (ops : List SMOp) : SMState × List String :=
  ops.foldl ghostStep (smInit, [])

/-- The protocols whose stub `start()` returned `True` in some `start()` call
since the most recent `stop()` of the trace. -/
def startedSinceStop (ops : List SMOp) : List String := (runG ops).2

/-! ## DNS resolver (`services/dns_server.py`)

`_FakeResolver.resolve` is pure string/dict logic once the dnslib packet
objects are peeled away: the query is a name and a type, the reply is a list
of resource records.  The `try/except` around the body can only fire on
dnslib-internal errors (e.g. an override value that is not a valid IP
string), which the pure model does not produce. -/

/-- Model of `str.lower()` (query names are ASCII, where Lean's `Char.toLower`
agrees with Python). -/
def pyLower (s : String) : String := ⟨s.data.map Char.toLower⟩

/-- Model of `str.rstrip(".")`: remove every trailing dot. -/
def rstripDots (s : String) : String :=
  ⟨(s.data.reverse.dropWhile (· == '.')).reverse⟩

/-- The normalization `.lower().rstrip(".")` applied to both query names and
custom-record keys. -/
def dnsNormalize (s : String) : String := rstripDots (pyLower s)

inductive QType where
  | qA
  | qAAAA
  | qPTR
  | qOther (code : Nat)
  deriving DecidableEq, Repr

inductive RData where
  | rdA (ip : String)
  | rdPTR (host : String)
  deriving DecidableEq, Repr

/-- One resource record of the reply (`RR(qname, rtype, ttl, rdata)`). -/
structure DNSAnswer where
  name : String
  rtype : QType
  rdata : RData
  deriving DecidableEq, Repr

/-- Which `return reply` of `_FakeResolver.resolve` produced the reply. -/
inductive ResolveBranch where
  | custom
  | ptr
  | aaaa
  | dfault
  deriving DecidableEq, Repr

structure ResolveResult where
  answers : List DNSAnswer
  branch : ResolveBranch
  deriving DecidableEq, Repr

structure FakeResolver where
  redirect_ip : String
  custom_records : List (String × String)
  ttl : Int
  handle_ptr : Bool

/-- Model of `_FakeResolver.__init__`: keys of `custom_records` are normalized with
`.lower().rstrip(".")`.  The dict comprehension lets a later duplicate
normalized key win, so lookups search the reversed list. -/
def FakeResolver.build (redirect_ip : String) (records : List (String × String))
    (ttl : Int) (handle_ptr : Bool) : FakeResolver :=
  ⟨redirect_ip, (records.map fun kv => (dnsNormalize kv.1, kv.2)).reverse,
   ttl, handle_ptr⟩

/-- Model of `_FakeResolver.resolve`: custom override first, then the PTR special
case, then AAAA (answered with an A record), then A and everything else. -/
def FakeResolver.resolve (r : FakeResolver) (qnameRaw : String) (qtype : QType) :
    ResolveResult :=
  let qname := dnsNormalize qnameRaw
  match r.custom_records.lookup qname with
  | some override_ip => ⟨[⟨qname, .qA, .rdA override_ip⟩], .custom⟩
  | none =>
    if qtype = .qPTR then
      if r.handle_ptr then ⟨[⟨qname, .qPTR, .rdPTR "notthenet.local"⟩], .ptr⟩
      else ⟨[], .ptr⟩
    else if qtype = .qAAAA then
      ⟨[⟨qname, .qA, .rdA r.redirect_ip⟩], .aaaa⟩
    else
      ⟨[⟨qname, .qA, .rdA r.redirect_ip⟩], .dfault⟩

/-! ## FTP upload handling (`services/ftp_server.py`)

`_FTPSession._recv_file` is modelled over the stream of chunks the data
connection delivers (`recv(65536)` results; an empty chunk means EOF, and
the modelled streams end implicitly).  The filesystem (`open`, `write`,
`_get_disk_usage`) appears as the pre-transfer usage figure and the list of
chunks written; the `except` arm for `open`/`write` OS errors is outside the
model.  The `finally: data_conn.close()` has no modelled state. -/

def MAX_UPLOAD_SIZE_BYTES : Nat := 50 * 1024 * 1024

def FTP_MAX_DISK_USAGE_BYTES : Nat := 200 * 1024 * 1024

/-- Total byte count of a chunk list. -/
def sumLen (l : List (List Nat)) : Nat := (l.map List.length).sum

/-- The `while True: chunk = recv(); ...` loop of `_recv_file`: returns the
chunks written to the file and how many chunks were read.  `received` is
incremented before the cap check, so the chunk that crosses the cap is read
and discarded but not written, and the loop stops. -/
def recvLoop (received : Nat) : List (List Nat) → List (List Nat) × Nat
  | [] => ([], 0)
  | chunk :: rest =>
    if chunk.length = 0 then ([], 0)
    else if received + chunk.length > MAX_UPLOAD_SIZE_BYTES then ([], 1)
    else
      let r := recvLoop (received + chunk.length) rest
      (chunk :: r.1, r.2 + 1)

structure RecvResult where
  replies : List String
  fileChunks : Option (List (List Nat))
  consumed : Nat
  deriving DecidableEq, Repr

/-- Model of `_FTPSession._recv_file`: reply `150` before accepting the data
connection; with uploads disabled drain and discard; with the aggregate
directory cap already exceeded drain, discard and reply `452`; otherwise
create the file and stream chunks subject to the per-file cap. -/
def recv_file (uploadDir : Option String) (diskUsage : Nat)
    (dataConn : Option (List (List Nat))) : RecvResult :=
  match dataConn with
  | none => ⟨["150 Ok to send data", "425 Can't open data connection"], none, 0⟩
  | some chunks =>
    match uploadDir with
    | none =>
      ⟨["150 Ok to send data", "226 Transfer complete (discarded)"], none,
       chunks.length⟩
    | some _ =>
      if diskUsage > FTP_MAX_DISK_USAGE_BYTES then
        ⟨["150 Ok to send data", "452 Insufficient storage space"], none,
         chunks.length⟩
      else
        let r := recvLoop 0 chunks
        ⟨["150 Ok to send data", "226 Transfer complete"], some r.1, r.2⟩

/-! ## SMTP session (`services/mail_server.py`)

`_SMTPClientThread._handle_line` is a per-connection state machine over the
decoded lines.  `uuid.uuid4().hex` is an oracle indexed by the number of
saves so far; the directory-usage scan before each save is the pre-session
usage plus the bytes this session already saved. -/

def MAX_EMAIL_SIZE_BYTES : Nat := 5 * 1024 * 1024

def SMTP_MAX_DISK_USAGE_BYTES : Nat := 100 * 1024 * 1024

def pyStripStr (s : String) : String := ⟨pyStrip s.data⟩

def pyUpper (s : String) : String := ⟨s.data.map Char.toUpper⟩

structure SMTPEnv where
  save_dir : Option String
  disk_usage : Nat
  uuid : Nat → String
  hostname : String

/-- The mutable per-connection fields of `_SMTPClientThread`. -/
structure SMTPState where
  data_mode : Bool
  mail_data : List String
  current_size : Nat
  deriving DecidableEq, Repr

/-- A session transcript: state, replies sent, files saved (name, content),
and whether `QUIT` closed the connection. -/
structure SMTPRun where
  st : SMTPState
  replies : List String
  saved : List (String × String)
  closed : Bool
  deriving DecidableEq, Repr

def usedBytes (saved : List (String × String)) : Nat :=
  (saved.map fun f => f.2.length).sum

/-- Model of `_SMTPClientThread._save_email`: skip when saving is disabled or the
buffer is empty; skip when the directory usage exceeds the aggregate cap;
otherwise write `"\n".join(mail_data)` under a uuid-derived name. -/
def save_email (env : SMTPEnv) (saveIdx usageNow : Nat)
    (mail_data : List String) : Option (String × String) :=
  match env.save_dir with
  | none => none
  | some _ =>
    if mail_data = [] then none
    else if usageNow > SMTP_MAX_DISK_USAGE_BYTES then none
    else some (env.uuid saveIdx ++ ".eml", String.intercalate "\n" mail_data)

/-- Model of `_SMTPClientThread._handle_line`. -/
def handleLine (env : SMTPEnv) (r : SMTPRun) (line : String) : SMTPRun :=
  if r.closed then r
  else if r.st.data_mode then
    if pyStripStr line = "." then
      { st := ⟨false, [], 0⟩,
        replies := r.replies ++ ["250 OK: Message accepted"],
        saved := r.saved ++ (save_email env r.saved.length
          (env.disk_usage + usedBytes r.saved) r.st.mail_data).toList,
        closed := false }
    else if r.st.current_size < MAX_EMAIL_SIZE_BYTES then
      { r with st := ⟨true, r.st.mail_data ++ [line],
                      r.st.current_size + line.length⟩ }
    else r
  else
    let cmd := (pyUpper (pyStripStr line)).data.take 10
    if "EHLO".data.isPrefixOf cmd || "HELO".data.isPrefixOf cmd then
      { r with replies := r.replies ++ ["250-" ++ env.hostname ++ "\r\n250 Ok"] }
    else if "MAIL".data.isPrefixOf cmd then
      { r with replies := r.replies ++ ["250 Ok"] }
    else if "RCPT".data.isPrefixOf cmd then
      { r with replies := r.replies ++ ["250 Ok"] }
    else if "DATA".data.isPrefixOf cmd then
      { r with st := { r.st with data_mode := true },
               replies := r.replies ++ ["354 End data with <CR><LF>.<CR><LF>"] }
    else if "RSET".data.isPrefixOf cmd then
      { r with st := ⟨r.st.data_mode, [], 0⟩,
               replies := r.replies ++ ["250 Ok"] }
    else if "QUIT".data.isPrefixOf cmd then
      { r with replies := r.replies ++ ["221 Bye"], closed := true }
    else if "NOOP".data.isPrefixOf cmd then
      { r with replies := r.replies ++ ["250 Ok"] }
    else
      { r with replies := r.replies ++ ["500 Unrecognized command"] }

def smtpInitRun : SMTPRun := ⟨⟨false, [], 0⟩, [], [], false⟩

/-- Process a session's decoded lines in order. -/
def runSMTP (env : SMTPEnv) (lines : List String) : SMTPRun :=
  lines.foldl (handleLine env) smtpInitRun

/-! ## iptables manager (`network/iptables_manager.py`)

A rule is the argument vector handed to the `iptables` binary (after the
program name).  The external world — effective uid, presence of the
`iptables` binary, `/proc/net/dev` contents, the `iptables-save` /
`iptables-restore` outcomes, and the exit status of each `iptables -A`
invocation — is an oracle record; `_run`, `_save_rules` and
`_restore_rules` only perform that I/O. -/

def RULE_COMMENT : String := "NOTTHENET"

abbrev IPTRule := List String

structure IPTEnv where
  isRoot : Bool
  iptablesAvailable : Bool
  ifaceInProc : Bool
  saveOk : Bool
  restoreOk : Bool
  addOk : Nat → Bool

/-- The fields of `IPTablesManager` (from its `__init__` over the `general`
config section, with `_rules_applied` and `_saved` mutable). -/
structure IPTState where
  enabled : Bool
  interface : String
  redirect_ip : String
  mode : String
  rules_applied : List IPTRule
  saved : Bool
  deriving DecidableEq, Repr

def IPTablesManager_init (cfg : ConfigSection) : IPTState :=
  ⟨pyTruthy (sectGet cfg "auto_iptables" (.vBool true)),
   pyStr (sectGet cfg "interface" (.vStr "eth0")),
   pyStr (sectGet cfg "redirect_ip" (.vStr "127.0.0.1")),
   pyStr (sectGet cfg "iptables_mode" (.vStr "loopback")),
   [], false⟩

/-- Characters of the interface-name regex class `[a-zA-Z0-9_\-\.]`. -/
def ifaceCharOk (c : Char) : Bool :=
  c.isAlphanum || c == '_' || c == '-' || c == '.'

/-- Model of `_validate_interface`: the regex `^[a-zA-Z0-9_\-\.]{1,15}$` plus the
`/proc/net/dev` presence check (the latter, including the assume-valid
fallback when `/proc` is unreadable, is the `ifaceInProc` oracle). -/
def validate_interface (env : IPTEnv) (iface : String) : Bool :=
  (1 ≤ iface.data.length && iface.data.length ≤ 15 &&
    iface.data.all ifaceCharOk) && env.ifaceInProc

/-- The chain picked by `apply_rules` from the mode. -/
def iptChain (st : IPTState) : String :=
  if st.mode = "gateway" then "PREROUTING" else "OUTPUT"

/-- A per-service redirect rule (tagged, with `--dport`). -/
def mkServiceRule (chain proto : String) (port : Int) : IPTRule :=
  ["-t", "nat", "-A", chain, "-p", proto, "--dport", toString port,
   "-j", "REDIRECT", "--to-ports", toString port,
   "-m", "comment", "--comment", RULE_COMMENT]

/-- An exclusion pass-through rule (tagged, `-j RETURN`). -/
def mkExcludeRule (chain : String) (port : Int) : IPTRule :=
  ["-t", "nat", "-A", chain, "-p", "tcp", "--dport", toString port,
   "-j", "RETURN", "-m", "comment", "--comment", RULE_COMMENT]

/-- The final catch-all redirect rule (tagged, no `--dport`). -/
def mkCatchAllRule (chain : String) (port : Int) : IPTRule :=
  ["-t", "nat", "-A", chain, "-p", "tcp",
   "-j", "REDIRECT", "--to-ports", toString port,
   "-m", "comment", "--comment", RULE_COMMENT]

/-- The service-port loop of `apply_rules` (ports failing `validate_port`
are skipped). -/
def serviceRules (chain : String) (service_ports : List (String × List PyVal)) :
    List IPTRule :=
  service_ports.flatMap fun pp =>
    pp.2.filterMap fun port => (validate_port port).map (mkServiceRule chain pp.1)

/-- The exclusion loop (`if not ep: continue`). -/
def excludeRules (chain : String) (excluded : List PyVal) : List IPTRule :=
  excluded.filterMap fun e => (validate_port e).map (mkExcludeRule chain)

/-- The final catch-all rule, when its port validates. -/
def catchRules (chain : String) (catch_port : PyVal) : List IPTRule :=
  match validate_port catch_port with
  | some p => [mkCatchAllRule chain p]
  | none => []

/-- A run of consecutive `_add_rule` calls: rule `k` of the session is
tracked in `_rules_applied` iff its `iptables -A` invocation exits 0.
Returns (rules tracked, next invocation index, success count). -/
def addSeq (env : IPTEnv) : List IPTRule → Nat → List IPTRule × Nat × Nat
  | [], k => ([], k, 0)
  | r :: rs, k =>
    let t := addSeq env rs (k + 1)
    if env.addOk k then (r :: t.1, t.2.1, t.2.2 + 1) else (t.1, t.2.1, t.2.2)

/-- Model of `IPTablesManager.apply_rules`: preconditions (enabled, root, binary,
interface), snapshot save, then service rules, exclusion rules, and the
catch-all, in that order.  Returns the new state, the boolean result
(`ok_count > 0`, where only service and catch-all adds count), and the
ordered list of rules whose addition was attempted. -/
def apply_rules (env : IPTEnv) (st : IPTState)
    (service_ports : List (String × List PyVal)) (catch_all_tcp_port : PyVal)
    (excluded_ports : List PyVal) : IPTState × Bool × List IPTRule :=
  if !st.enabled then (st, false, [])
  else if !env.isRoot then (st, false, [])
  else if !env.iptablesAvailable then (st, false, [])
  else if !validate_interface env st.interface then (st, false, [])
  else
    let chain := iptChain st
    let svc := serviceRules chain service_ports
    let excl := excludeRules chain excluded_ports
    let cat := catchRules chain catch_all_tcp_port
    let a₁ := addSeq env svc 0
    let a₂ := addSeq env excl a₁.2.1
    let a₃ := addSeq env cat a₂.2.1
    ({ st with saved := env.saveOk,
               rules_applied := st.rules_applied ++ a₁.1 ++ a₂.1 ++ a₃.1 },
     decide (a₁.2.2 + a₃.2.2 > 0),
     svc ++ excl ++ cat)

/-- Model of `_del_rule`: the deletion command swaps `-A` for `-D`. -/
def del_variant (rule : IPTRule) : IPTRule :=
  rule.map fun a => if a = "-A" then "-D" else a

inductive RemoveAction where
  | noRules
  | notRoot
  | restored
  | deleted (order : List IPTRule)
  deriving DecidableEq, Repr

/-- Model of `IPTablesManager.remove_rules`: nothing tracked → no-op; not root →
refuse (tracked list untouched); snapshot saved and restore succeeds →
restore and clear; otherwise delete each tracked rule individually in
reverse order of addition and clear. -/
def remove_rules (env : IPTEnv) (st : IPTState) : IPTState × RemoveAction :=
  if st.rules_applied = [] then (st, .noRules)
  else if !env.isRoot then (st, .notRoot)
  else if st.saved && env.restoreOk then
    ({ st with rules_applied := [] }, .restored)
  else
    ({ st with rules_applied := [] }, .deleted st.rules_applied.reverse)

/-- Concrete environment for witnesses: `ipaddress` accepts exactly
`"127.0.0.1"`, every external start condition holds. -/
def envW : StartEnv := ⟨fun v => v == .vStr "127.0.0.1", fun _ => true⟩

/-- A config whose only enabled service has a non-numeric port — rejected by
`validate_config`. -/
def cfgBadPort : ConfigDict :=
  [("http", [("enabled", PyVal.vBool true), ("port", PyVal.vStr "abc")])]

/-- The config on which `ServiceManager.start()` raises: the `dns` section is
disabled (so `validate_config` never checks its port) but carries a
non-numeric port, which `int()` in `DNSService.__init__` cannot convert. -/
def cfgC2 : ConfigDict :=
  [("dns", [("enabled", PyVal.vBool false), ("port", PyVal.vStr "abc")])]

/-! ## Theorems for C3 -/

theorem subControl_safe (l : List Char) :
    ∀ c ∈ subControl l, isBadLogChar c = false := by
  intro c hc
  simp only [subControl, List.mem_flatMap] at hc
  obtain ⟨a, _, ha⟩ := hc
  by_cases h : isBadLogChar a
  · simp [h] at ha
    rcases ha with rfl | rfl | rfl <;> decide
  · simp [h] at ha
    subst ha
    simpa using h

theorem truncationMarker_safe : ∀ c ∈ truncationMarker, isBadLogChar c = false := by
  decide

theorem sanitize_log_string_safe (s : String) (n : Nat) :
    ∀ c ∈ (sanitize_log_string s n).data, isBadLogChar c = false := by
  intro c hc
  unfold sanitize_log_string at hc
  by_cases h : (subControl (ansiSub s.data)).length > n
  · simp only [h, if_true, List.mem_append] at hc
    rcases hc with hc | hc
    · exact subControl_safe _ c (List.mem_of_mem_take hc)
    · exact truncationMarker_safe c hc
  · simp only [h, if_false] at hc
    exact subControl_safe _ c hc

theorem matchAnsiAt_of_ne (c : Char) (cs : List Char) (h : c ≠ '\x1b') :
    matchAnsiAt (c :: cs) = false := by
  unfold matchAnsiAt
  split
  · rename_i heq
    injection heq with h1 _
    exact absurd h1 h
  · rfl

theorem no_esc_no_ansiSeq (l : List Char) (h : '\x1b' ∉ l) : hasAnsiSeq l = false := by
  induction l with
  | nil => rfl
  | cons c cs ih =>
    have hc : c ≠ '\x1b' := fun hcc => h (hcc ▸ List.mem_cons_self _ _)
    have hcs : '\x1b' ∉ cs := fun hm => h (List.mem_cons_of_mem _ hm)
    rw [hasAnsiSeq, matchAnsiAt_of_ne c cs hc, ih hcs]
    rfl

theorem sanitize_log_string_length (s : String) (n : Nat) :
    (sanitize_log_string s n).length ≤ n + truncationMarker.length := by
  unfold sanitize_log_string
  by_cases h : (subControl (ansiSub s.data)).length > n
  · simp only [h, if_true]
    show (List.take n _ ++ truncationMarker).length ≤ _
    rw [List.length_append, List.length_take]
    omega
  · simp only [h, if_false]
    show (subControl (ansiSub s.data)).length ≤ _
    omega

/-- C3 (counterexample): the claim bounds the output by the configured
maximum length, but `sanitize_log_string` appends the 14-character
`...[truncated]` marker after slicing.  On the input `"ab\rcd"` (which
contains a CR) with maximum length 3 the output has length 17 > 3. -/
theorem C3_counterexample :
    '\r' ∈ "ab\rcd".data ∧ (sanitize_log_string "ab\rcd" 3).length > 3 := by
  decide

/-- C3 (amended): for every input string and configured maximum length, the
output of `sanitize_log_string` contains no CR, LF, NUL, or ANSI escape
sequence (indeed no character of the replaced control class at all), and its
length is at most the configured maximum length plus the length (14) of the
fixed `...[truncated]` marker. -/
theorem C3_sanitize_output_safe_and_bounded (s : String) (n : Nat) :
    ('\r' ∉ (sanitize_log_string s n).data ∧
      '\n' ∉ (sanitize_log_string s n).data ∧
      '\x00' ∉ (sanitize_log_string s n).data ∧
      '\x1b' ∉ (sanitize_log_string s n).data) ∧
    hasAnsiSeq (sanitize_log_string s n).data = false ∧
    (sanitize_log_string s n).length ≤ n + 14 := by
  have hsafe := sanitize_log_string_safe s n
  have hesc : '\x1b' ∉ (sanitize_log_string s n).data := by
    intro hm
    have := hsafe _ hm
    simp [isBadLogChar] at this
  refine ⟨⟨?_, ?_, ?_, hesc⟩, no_esc_no_ansiSeq _ hesc, sanitize_log_string_length s n⟩
  all_goals intro hm
  all_goals have := hsafe _ hm
  all_goals simp [isBadLogChar] at this

/-! ## Theorems for C1, C2, C9 (orchestrator) -/

/-- C1: `ServiceManager.start()` fails closed — with a non-empty validation
error list no stub's `start()` is invoked (state, journals untouched) and
the call returns `False`; with an empty error list, whenever the call
returns normally it returns `True` iff at least one stub's `start()`
returned `True`. -/
theorem C1_start_fails_closed (env : StartEnv) (cfg : ConfigDict) (st : SMState) :
    (validate_config env.ipOk cfg ≠ [] →
      smStart env cfg st = ⟨st, [], [], .ok false⟩) ∧
    (validate_config env.ipOk cfg = [] →
      ∀ b : Bool, (smStart env cfg st).result = .ok b →
        (b = true ↔ (smStart env cfg st).started ≠ [])) := by
  constructor
  · intro h
    simp [smStart, h]
  · intro h b hb
    have hcond : ¬ validate_config env.ipOk cfg ≠ [] := by simp [h]
    unfold smStart at hb ⊢
    rw [if_neg hcond] at hb ⊢
    rcases hr : runStubs env cfg stubDefs st.services [] [] with ⟨svcs, inv, strt, err⟩
    rw [hr] at hb
    cases err with
    | some e => simp at hb
    | none =>
      have hb₂ : (match iptResult cfg svcs with
          | Except.error e =>
            ({ state := ⟨svcs, st.running⟩, invoked := inv, started := strt,
               result := Except.error e } : StartOutcome)
          | Except.ok _ =>
            { state := ⟨svcs, decide (strt ≠ [])⟩, invoked := inv, started := strt,
              result := Except.ok (decide (strt ≠ [])) }).result = Except.ok b := hb
      show b = true ↔ (match iptResult cfg svcs with
          | Except.error e =>
            ({ state := ⟨svcs, st.running⟩, invoked := inv, started := strt,
               result := Except.error e } : StartOutcome)
          | Except.ok _ =>
            { state := ⟨svcs, decide (strt ≠ [])⟩, invoked := inv, started := strt,
              result := Except.ok (decide (strt ≠ [])) }).started ≠ []
      rcases hi : iptResult cfg svcs with e | u
      · rw [hi] at hb₂
        simp at hb₂
      · rw [hi] at hb₂
        have hb₃ : Except.ok (decide (strt ≠ [])) = Except.ok b := hb₂
        injection hb₃ with hb₃
        subst hb₃
        show decide (strt ≠ []) = true ↔ strt ≠ []
        simp

/-- C1 witness: a config with an invalid enabled port is rejected with no
stub invoked, and the empty config (all defaults) starts and returns
`True` with a non-empty started list. -/
theorem C1_start_fails_closed_witness :
    (validate_config envW.ipOk cfgBadPort ≠ [] ∧
      smStart envW cfgBadPort smInit = ⟨smInit, [], [], .ok false⟩) ∧
    (validate_config envW.ipOk [] = [] ∧
      (smStart envW [] smInit).result = .ok true ∧
      (smStart envW [] smInit).started ≠ []) := by
  refine ⟨⟨by decide, (C1_start_fails_closed envW cfgBadPort smInit).1 (by decide)⟩,
    by decide, by decide,
    ((C1_start_fails_closed envW [] smInit).2 (by decide) true (by decide)).mp rfl⟩

/-- C2: the claim that `start()` never raises is violated — on `cfgC2`
validation passes, yet `start()` propagates a `ValueError` out of
`DNSService.__init__` before any stub's `start()` is invoked. -/
theorem C2_start_raises_at_failing_input :
    validate_config envW.ipOk cfgC2 = [] ∧
    (smStart envW cfgC2 smInit).result = .error "int() conversion failed" ∧
    (smStart envW cfgC2 smInit).invoked = [] := by
  decide

theorem mem_addKey (l : List String) (k x : String) :
    x ∈ addKey l k ↔ x ∈ l ∨ x = k := by
  unfold addKey
  split
  · rename_i hk
    constructor
    · exact Or.inl
    · rintro (hx | rfl)
      · exact hx
      · exact hk
  · simp

theorem mem_foldl_addKey (l : List String) :
    ∀ (init : List String) (x : String),
      x ∈ l.foldl addKey init ↔ x ∈ init ∨ x ∈ l := by
  induction l with
  | nil => simp
  | cons a l ih =>
    intro init x
    rw [List.foldl_cons, ih, mem_addKey]
    constructor
    · rintro ((hx | rfl) | hx)
      · exact Or.inl hx
      · exact Or.inr (List.mem_cons_self _ _)
      · exact Or.inr (List.mem_cons_of_mem _ hx)
    · rintro (hx | hx)
      · exact Or.inl (Or.inl hx)
      · rcases List.mem_cons.mp hx with rfl | hx
        · exact Or.inl (Or.inr rfl)
        · exact Or.inr hx

theorem runStubs_decomp (env : StartEnv) (cfg : ConfigDict) :
    ∀ (ds : List StubDef) (svcs inv strt : List String),
      ∃ news inv₂ err,
        runStubs env cfg ds svcs inv strt =
          (news.foldl addKey svcs, inv ++ inv₂, strt ++ news, err) := by
  intro ds
  induction ds with
  | nil =>
    intro svcs inv strt
    exact ⟨[], [], none, by simp [runStubs]⟩
  | cons d rest ih =>
    intro svcs inv strt
    cases hinit : d.init (cfgSection cfg d.sectionName) with
    | error e =>
      exact ⟨[], [], some e, by simp [runStubs, hinit]⟩
    | ok info =>
      by_cases hok : (info.enabled && env.extOk d.name) = true
      · obtain ⟨news, inv₂, err, heq⟩ :=
          ih (addKey svcs d.name) (inv ++ [d.name]) (strt ++ [d.name])
        refine ⟨d.name :: news, d.name :: inv₂, err, ?_⟩
        simp only [runStubs, hinit]
        rw [if_pos hok, if_pos hok, heq]
        simp
      · obtain ⟨news, inv₂, err, heq⟩ := ih svcs (inv ++ [d.name]) strt
        refine ⟨news, d.name :: inv₂, err, ?_⟩
        simp only [runStubs, hinit]
        rw [if_neg hok, if_neg hok, heq]
        simp

theorem smStart_services (env : StartEnv) (cfg : ConfigDict) (st : SMState) :
    (smStart env cfg st).state.services =
      (smStart env cfg st).started.foldl addKey st.services := by
  unfold smStart
  by_cases hv : validate_config env.ipOk cfg ≠ []
  · simp [hv]
  · rw [if_neg hv]
    obtain ⟨news, inv₂, err, heq⟩ := runStubs_decomp env cfg stubDefs st.services [] []
    rw [heq]
    cases err with
    | some e => simp
    | none =>
      rcases hi : iptResult cfg (news.foldl addKey st.services) with e | u
      · simp [hi]
      · simp [hi]

theorem runG_fst (ops : List SMOp) :
    ∀ (st : SMState) (acc : List String),
      (ops.foldl ghostStep (st, acc)).1 = ops.foldl smStep st := by
  induction ops with
  | nil => intro st acc; rfl
  | cons op rest ih =>
    intro st acc
    cases op with
    | opStart env cfg => exact ih _ _
    | opStop => exact ih _ _

theorem runG_mem_invariant (ops : List SMOp) :
    ∀ (st : SMState) (acc : List String),
      (∀ n, n ∈ st.services ↔ n ∈ acc) →
      ∀ n, n ∈ (ops.foldl ghostStep (st, acc)).1.services ↔
        n ∈ (ops.foldl ghostStep (st, acc)).2 := by
  induction ops with
  | nil => intro st acc h n; exact h n
  | cons op rest ih =>
    intro st acc h n
    cases op with
    | opStart env cfg =>
      refine ih _ _ (fun m => ?_) n
      show m ∈ (smStart env cfg st).state.services ↔
        m ∈ acc ++ (smStart env cfg st).started
      rw [smStart_services, mem_foldl_addKey, List.mem_append, h m]
    | opStop =>
      exact ih _ _ (fun m => by simp [smStop]) n

/-- C9: in every reachable orchestrator state (any trace of `start`/`stop`
operations from the fresh state), the `status()` map has a key for a
protocol iff that protocol's stub `start()` returned `True` in some
`start()` call since the most recent `stop()`; protocols that failed to
start or were never enabled are absent (not present with value `False`),
and immediately after a `stop()` the map is empty. -/
theorem C9_status_keys_iff_started (ops : List SMOp) (live : String → Bool) :
    (∀ n, n ∈ (smStatus live (smRun ops)).map Prod.fst ↔ n ∈ startedSinceStop ops) ∧
    smStatus live (smRun (ops ++ [SMOp.opStop])) = [] := by
  constructor
  · intro n
    have hkeys : (smStatus live (smRun ops)).map Prod.fst = (smRun ops).services := by
      simp only [smStatus, List.map_map]
      exact List.map_id _
    rw [hkeys, smRun, startedSinceStop, runG, ← runG_fst ops smInit []]
    exact runG_mem_invariant ops smInit [] (fun m => by simp [smInit]) n
  · rw [smRun, List.foldl_append]
    simp [smStep, smStop, smStatus]

/-! ## Theorems for C4 and C10 (DNS resolver) -/

theorem dnsNormalize_append_dot (s : String) :
    dnsNormalize (s ++ ".") = dnsNormalize s := by
  unfold dnsNormalize rstripDots pyLower
  simp [String.data_append]

theorem resolve_congr (r : FakeResolver) (q₁ q₂ : String) (qtype : QType)
    (h : dnsNormalize q₁ = dnsNormalize q₂) :
    r.resolve q₁ qtype = r.resolve q₂ qtype := by
  unfold FakeResolver.resolve
  rw [h]

/-- C4 (counterexample): with no custom records, `handle_ptr = True` and
redirect IP `127.0.0.1`, a PTR query is answered with the synthetic
hostname `notthenet.local`, not with the redirect IP — so not every query
outside the record table returns the redirect IP. -/
theorem C4_counterexample :
    ((FakeResolver.build "127.0.0.1" [] 300 true).resolve
        "9.0.0.10.in-addr.arpa" QType.qPTR).answers =
      [⟨"9.0.0.10.in-addr.arpa", QType.qPTR, RData.rdPTR "notthenet.local"⟩] ∧
    ∀ a ∈ ((FakeResolver.build "127.0.0.1" [] 300 true).resolve
        "9.0.0.10.in-addr.arpa" QType.qPTR).answers,
      a.rdata ≠ RData.rdA "127.0.0.1" := by
  decide

/-- C4 (amended): for every non-PTR DNS query, the resolver answers with the
configured redirect IP when the (lower-cased, trailing-dot-stripped) name is
not in the custom-record table, and with that record's IP (as an A record,
for any query type) when it is; the match is insensitive to case and to
trailing dots.  (Only PTR queries are excluded: the counterexample shows a
PTR query outside the table does not receive the redirect IP.) -/
theorem C4_dns_redirect_with_overrides (redirect : String)
    (records : List (String × String)) (ttl : Int) (hp : Bool)
    (qname : String) (qtype : QType) :
    (∀ ip, (FakeResolver.build redirect records ttl hp).custom_records.lookup
          (dnsNormalize qname) = some ip →
        ((FakeResolver.build redirect records ttl hp).resolve qname qtype).answers =
          [⟨dnsNormalize qname, QType.qA, RData.rdA ip⟩]) ∧
    ((FakeResolver.build redirect records ttl hp).custom_records.lookup
          (dnsNormalize qname) = none → qtype ≠ QType.qPTR →
        ((FakeResolver.build redirect records ttl hp).resolve qname qtype).answers =
          [⟨dnsNormalize qname, QType.qA, RData.rdA redirect⟩]) ∧
    ((FakeResolver.build redirect records ttl hp).resolve (qname ++ ".") qtype =
        (FakeResolver.build redirect records ttl hp).resolve qname qtype) ∧
    (∀ q₂, pyLower qname = pyLower q₂ →
        (FakeResolver.build redirect records ttl hp).resolve qname qtype =
          (FakeResolver.build redirect records ttl hp).resolve q₂ qtype) := by
  refine ⟨?_, ?_, ?_, ?_⟩
  · intro ip h
    simp [FakeResolver.resolve, h]
  · intro h hq
    simp only [FakeResolver.resolve, h]
    rw [if_neg hq]
    by_cases hA : qtype = QType.qAAAA
    · simp [hA, FakeResolver.build]
    · rw [if_neg hA]
      simp [FakeResolver.build]
  · exact resolve_congr _ _ _ _ (dnsNormalize_append_dot qname)
  · intro q₂ h
    exact resolve_congr _ _ _ _ (by unfold dnsNormalize; rw [h])

/-- C4 (witness): concrete instantiation — `special.test` is overridden to
`10.0.0.9` (queried as `SPECIAL.TEST.` to exercise normalization), any
other A query gets the redirect IP `127.0.0.1`. -/
theorem C4_dns_redirect_with_overrides_witness :
    ((FakeResolver.build "127.0.0.1" [("special.test", "10.0.0.9")] 300 true).resolve
        "SPECIAL.TEST." QType.qA).answers =
      [⟨"special.test", QType.qA, RData.rdA "10.0.0.9"⟩] ∧
    ((FakeResolver.build "127.0.0.1" [("special.test", "10.0.0.9")] 300 true).resolve
        "anything-else.test" QType.qA).answers =
      [⟨"anything-else.test", QType.qA, RData.rdA "127.0.0.1"⟩] := by
  refine ⟨?_, ?_⟩
  · have h := (C4_dns_redirect_with_overrides "127.0.0.1"
      [("special.test", "10.0.0.9")] 300 true "SPECIAL.TEST." QType.qA).1
      "10.0.0.9" (by decide)
    rw [h]
    decide
  · have h := (C4_dns_redirect_with_overrides "127.0.0.1"
      [("special.test", "10.0.0.9")] 300 true "anything-else.test" QType.qA).2.1
      (by decide) (by decide)
    rw [h]
    decide

/-- C10: whenever the normalized query name is present in the custom-record
table, the reply is exactly one A record carrying the override IP and it is
produced by the custom-override branch — for every query type, so the PTR
and AAAA special cases are never reached for such a name. -/
theorem C10_custom_override_precedence (redirect : String)
    (records : List (String × String)) (ttl : Int) (hp : Bool)
    (qname : String) (qtype : QType) (ip : String)
    (h : (FakeResolver.build redirect records ttl hp).custom_records.lookup
        (dnsNormalize qname) = some ip) :
    (FakeResolver.build redirect records ttl hp).resolve qname qtype =
      ⟨[⟨dnsNormalize qname, QType.qA, RData.rdA ip⟩], ResolveBranch.custom⟩ := by
  simp [FakeResolver.resolve, h]

/-- C10 (witness): a PTR query for an overridden name takes the custom
branch and answers with the override A record. -/
theorem C10_custom_override_precedence_witness :
    (FakeResolver.build "127.0.0.1" [("Special.Test.", "10.0.0.9")] 300 true).resolve
        "special.test" QType.qPTR =
      ⟨[⟨"special.test", QType.qA, RData.rdA "10.0.0.9"⟩], ResolveBranch.custom⟩ :=
  C10_custom_override_precedence "127.0.0.1" [("Special.Test.", "10.0.0.9")]
    300 true "special.test" QType.qPTR "10.0.0.9" (by decide)

/-! ## Theorems for C5 (FTP upload) -/

theorem sumLen_nil : sumLen [] = 0 := rfl

theorem sumLen_cons (a : List Nat) (l : List (List Nat)) :
    sumLen (a :: l) = a.length + sumLen l := by
  simp [sumLen]

theorem recvLoop_spec (chunks : List (List Nat)) :
    ∀ received, received ≤ MAX_UPLOAD_SIZE_BYTES →
      (∀ ch ∈ chunks, ch ≠ []) →
      received + sumLen (recvLoop received chunks).1 ≤ MAX_UPLOAD_SIZE_BYTES ∧
      (recvLoop received chunks).1 <+: chunks ∧
      (received + sumLen chunks > MAX_UPLOAD_SIZE_BYTES →
        (recvLoop received chunks).2 = (recvLoop received chunks).1.length + 1 ∧
        (recvLoop received chunks).1.length < chunks.length) := by
  induction chunks with
  | nil =>
    intro received hrec _
    refine ⟨by simpa [recvLoop, sumLen] using hrec, by simp [recvLoop], ?_⟩
    intro h
    rw [sumLen_nil] at h
    omega
  | cons ch rest ih =>
    intro received hrec hne
    have hch : ch ≠ [] := hne ch (List.mem_cons_self _ _)
    have hlen : ¬ ch.length = 0 := fun h0 => hch (List.length_eq_zero.mp h0)
    by_cases hcap : received + ch.length > MAX_UPLOAD_SIZE_BYTES
    · have hstep : recvLoop received (ch :: rest) = ([], 1) := by
        simp only [recvLoop, if_neg hlen, if_pos hcap]
      rw [hstep]
      refine ⟨by simpa [sumLen] using hrec, List.nil_prefix, fun _ => ?_⟩
      simp
    · have hcap' : received + ch.length ≤ MAX_UPLOAD_SIZE_BYTES := by omega
      obtain ⟨h1, h2, h3⟩ := ih (received + ch.length) hcap'
        (fun c hc => hne c (List.mem_cons_of_mem _ hc))
      have hstep : recvLoop received (ch :: rest) =
          (ch :: (recvLoop (received + ch.length) rest).1,
           (recvLoop (received + ch.length) rest).2 + 1) := by
        conv_lhs => rw [recvLoop]
        rw [if_neg hlen, if_neg hcap]
      rw [hstep]
      refine ⟨?_, ?_, ?_⟩
      · rw [sumLen_cons] at *
        omega
      · obtain ⟨t, ht⟩ := h2
        exact ⟨t, by rw [List.cons_append, ht]⟩
      · intro hover
        rw [sumLen_cons] at hover
        obtain ⟨ha, hb⟩ := h3 (by omega)
        exact ⟨by simp [ha], by simpa using Nat.succ_lt_succ hb⟩

/-- C5: an FTP `STOR` whose data stream exceeds the per-file cap stores at
most the cap (the written chunks are a prefix of the stream; the chunk that
crosses the cap is read and discarded but never written, and the loop
stops), and the control connection still gets the `226` success reply; when
the aggregate directory cap is already exceeded before the transfer, the
data connection is drained in full, no file is created, and the `452`
storage-exhausted reply is sent. -/
theorem C5_ftp_upload_caps (dir : String) (usage : Nat) (chunks : List (List Nat))
    (hne : ∀ ch ∈ chunks, ch ≠ []) :
    (usage ≤ FTP_MAX_DISK_USAGE_BYTES →
      (recv_file (some dir) usage (some chunks)).replies =
          ["150 Ok to send data", "226 Transfer complete"] ∧
      ∃ w, (recv_file (some dir) usage (some chunks)).fileChunks = some w ∧
        sumLen w ≤ MAX_UPLOAD_SIZE_BYTES ∧
        w <+: chunks ∧
        (sumLen chunks > MAX_UPLOAD_SIZE_BYTES →
          (recv_file (some dir) usage (some chunks)).consumed = w.length + 1 ∧
          w.length < chunks.length)) ∧
    (usage > FTP_MAX_DISK_USAGE_BYTES →
      (recv_file (some dir) usage (some chunks)).replies =
          ["150 Ok to send data", "452 Insufficient storage space"] ∧
      (recv_file (some dir) usage (some chunks)).fileChunks = none ∧
      (recv_file (some dir) usage (some chunks)).consumed = chunks.length) := by
  constructor
  · intro hu
    have hnot : ¬ usage > FTP_MAX_DISK_USAGE_BYTES := by omega
    obtain ⟨h1, h2, h3⟩ := recvLoop_spec chunks 0 (Nat.zero_le _) hne
    have hre : recv_file (some dir) usage (some chunks) =
        ⟨["150 Ok to send data", "226 Transfer complete"],
         some (recvLoop 0 chunks).1, (recvLoop 0 chunks).2⟩ := by
      simp only [recv_file, if_neg hnot]
    rw [hre]
    exact ⟨rfl, (recvLoop 0 chunks).1, rfl, by simpa using h1, h2,
      fun hover => h3 (by simpa using hover)⟩
  · intro hu
    simp [recv_file, hu]

/-- C5 (witness): a single 50 MiB + 1 byte chunk is read but not written
(empty stored file, one chunk consumed, `226` reply); with the directory
already over the 200 MiB cap, a small upload is drained and refused with
`452`. -/
theorem C5_ftp_upload_caps_witness :
    ((recv_file (some "logs/ftp_uploads") 0 (some [List.replicate 52428801 0])).replies =
        ["150 Ok to send data", "226 Transfer complete"] ∧
      (recv_file (some "logs/ftp_uploads") 0 (some [List.replicate 52428801 0])).fileChunks =
        some [] ∧
      (recv_file (some "logs/ftp_uploads") 0 (some [List.replicate 52428801 0])).consumed = 1) ∧
    ((recv_file (some "logs/ftp_uploads") 209715201 (some [[7]])).replies =
        ["150 Ok to send data", "452 Insufficient storage space"] ∧
      (recv_file (some "logs/ftp_uploads") 209715201 (some [[7]])).fileChunks = none ∧
      (recv_file (some "logs/ftp_uploads") 209715201 (some [[7]])).consumed = 1) := by
  constructor
  · have hne : ∀ ch ∈ [List.replicate 52428801 (0 : Nat)], ch ≠ [] := by
      intro ch hch
      simp only [List.mem_singleton] at hch
      subst hch
      exact List.length_pos.mp (by rw [List.length_replicate]; decide)
    obtain ⟨hrep, w, hfile, hsum, hpre, hover⟩ :=
      (C5_ftp_upload_caps "logs/ftp_uploads" 0 [List.replicate 52428801 0] hne).1
        (Nat.zero_le _)
    have hbig : sumLen [List.replicate 52428801 (0 : Nat)] = 52428801 := by
      rw [sumLen_cons, sumLen_nil, List.length_replicate]
    obtain ⟨hcons, hlt⟩ := hover (by rw [hbig]; decide)
    have hl1 : ([List.replicate 52428801 (0 : Nat)] : List (List Nat)).length = 1 := rfl
    have hw0 : w.length = 0 := by omega
    have hw : w = [] := List.length_eq_zero.mp hw0
    subst hw
    exact ⟨hrep, hfile, by rw [hcons]; rfl⟩
  · obtain ⟨h1, h2, h3⟩ :=
      (C5_ftp_upload_caps "logs/ftp_uploads" 209715201 [[7]] (by decide)).2 (by decide)
    exact ⟨h1, h2, h3⟩

/-! ## Theorems for C6 (SMTP DATA handling) -/

theorem smtp_body_fold (env : SMTPEnv) (body : List String)
    (hdot : ∀ l ∈ body, pyStripStr l ≠ ".") :
    ∀ (mail : List String) (size : Nat) (reps : List String)
      (saved : List (String × String)),
      ∃ mailF sizeF,
        body.foldl (handleLine env) ⟨⟨true, mail, size⟩, reps, saved, false⟩ =
          ⟨⟨true, mailF, sizeF⟩, reps, saved, false⟩ ∧ mail <+: mailF := by
  induction body with
  | nil =>
    intro mail size reps saved
    exact ⟨mail, size, rfl, List.prefix_refl _⟩
  | cons l rest ih =>
    intro mail size reps saved
    have hl : pyStripStr l ≠ "." := hdot l (List.mem_cons_self _ _)
    have hrest : ∀ m ∈ rest, pyStripStr m ≠ "." :=
      fun m hm => hdot m (List.mem_cons_of_mem _ hm)
    rw [List.foldl_cons]
    by_cases hsz : size < MAX_EMAIL_SIZE_BYTES
    · have hstep : handleLine env ⟨⟨true, mail, size⟩, reps, saved, false⟩ l =
          ⟨⟨true, mail ++ [l], size + l.length⟩, reps, saved, false⟩ := by
        simp [handleLine, hl, hsz]
      rw [hstep]
      obtain ⟨mailF, sizeF, heq, hpre⟩ :=
        ih hrest (mail ++ [l]) (size + l.length) reps saved
      exact ⟨mailF, sizeF, heq, (List.prefix_append mail [l]).trans hpre⟩
    · have hstep : handleLine env ⟨⟨true, mail, size⟩, reps, saved, false⟩ l =
          ⟨⟨true, mail, size⟩, reps, saved, false⟩ := by
        simp [handleLine, hl, hsz]
      rw [hstep]
      exact ih hrest mail size reps saved

/-- C6: an SMTP session that sends `DATA`, a non-empty body (no line of
which is a lone `.`), then a lone `.` saves exactly one message file when
saving is enabled and the aggregate directory cap is not exceeded — and the
file's name is `uuid ++ ".eml"`, derived from the uuid oracle only, never
from session input; zero files are saved when saving is disabled; a message
arriving with the aggregate cap already exceeded is silently discarded
(no file, but still the `250` acceptance reply). -/
theorem C6_smtp_data_saves_one (env : SMTPEnv) (body : List String)
    (hbody : body ≠ []) (hdot : ∀ l ∈ body, pyStripStr l ≠ ".") :
    ((∃ d, env.save_dir = some d) →
      env.disk_usage ≤ SMTP_MAX_DISK_USAGE_BYTES →
      (runSMTP env (["DATA"] ++ body ++ ["."])).saved.map Prod.fst =
        [env.uuid 0 ++ ".eml"]) ∧
    (env.save_dir = none →
      (runSMTP env (["DATA"] ++ body ++ ["."])).saved = []) ∧
    (env.disk_usage > SMTP_MAX_DISK_USAGE_BYTES →
      (runSMTP env (["DATA"] ++ body ++ ["."])).saved = []) ∧
    (runSMTP env (["DATA"] ++ body ++ ["."])).replies.getLast? =
      some "250 OK: Message accepted" := by
  obtain ⟨b, rest, rfl⟩ : ∃ b rest, body = b :: rest := by
    cases body with
    | nil => exact absurd rfl hbody
    | cons b rest => exact ⟨b, rest, rfl⟩
  have hb : pyStripStr b ≠ "." := hdot b (List.mem_cons_self _ _)
  have hrest : ∀ m ∈ rest, pyStripStr m ≠ "." :=
    fun m hm => hdot m (List.mem_cons_of_mem _ hm)
  have hDATA : handleLine env smtpInitRun "DATA" =
      ⟨⟨true, [], 0⟩, ["354 End data with <CR><LF>.<CR><LF>"], [], false⟩ := rfl
  have h0 : (0 : Nat) < MAX_EMAIL_SIZE_BYTES := by decide
  have hstep1 : handleLine env ⟨⟨true, [], 0⟩,
      ["354 End data with <CR><LF>.<CR><LF>"], [], false⟩ b =
      ⟨⟨true, [b], b.length⟩,
       ["354 End data with <CR><LF>.<CR><LF>"], [], false⟩ := by
    simp [handleLine, hb, h0]
  obtain ⟨mailF, sizeF, heqF, hpreF⟩ := smtp_body_fold env rest hrest
    [b] b.length ["354 End data with <CR><LF>.<CR><LF>"] []
  have hmf : mailF ≠ [] := by
    intro hnil
    rw [hnil] at hpreF
    exact absurd (List.prefix_nil.mp hpreF) (by simp)
  have hd : pyStripStr "." = "." := by decide
  have hstep2 : handleLine env ⟨⟨true, mailF, sizeF⟩,
      ["354 End data with <CR><LF>.<CR><LF>"], [], false⟩ "." =
      ⟨⟨false, [], 0⟩,
       ["354 End data with <CR><LF>.<CR><LF>", "250 OK: Message accepted"],
       (save_email env 0 env.disk_usage mailF).toList, false⟩ := by
    simp [handleLine, hd, usedBytes]
  have hfinal : runSMTP env (["DATA"] ++ (b :: rest) ++ ["."]) =
      ⟨⟨false, [], 0⟩,
       ["354 End data with <CR><LF>.<CR><LF>", "250 OK: Message accepted"],
       (save_email env 0 env.disk_usage mailF).toList, false⟩ := by
    rw [runSMTP]
    simp only [List.foldl_append, List.foldl_cons, List.foldl_nil]
    rw [hDATA, hstep1, heqF, hstep2]
  rw [hfinal]
  refine ⟨?_, ?_, ?_, rfl⟩
  · rintro ⟨d, hdir⟩ hcap
    have hnc : ¬ env.disk_usage > SMTP_MAX_DISK_USAGE_BYTES := by omega
    simp [save_email, hdir, hmf, hnc]
  · intro hdir
    simp [save_email, hdir]
  · intro hcap
    rcases hdir : env.save_dir with _ | d <;> simp [save_email, hdir, hmf, hcap]

/-- C6 (witness): with saving enabled and an empty directory, the session
`DATA`, `hello world`, `.` saves exactly the file `cafebabe.eml`; with
saving disabled it saves nothing. -/
theorem C6_smtp_data_saves_one_witness :
    (runSMTP ⟨some "logs/emails", 0, fun _ => "cafebabe", "mail.notthenet.local"⟩
        (["DATA"] ++ ["hello world"] ++ ["."])).saved.map Prod.fst =
      ["cafebabe.eml"] ∧
    (runSMTP ⟨none, 0, fun _ => "cafebabe", "mail.notthenet.local"⟩
        (["DATA"] ++ ["hello world"] ++ ["."])).saved = [] :=
  ⟨(C6_smtp_data_saves_one
      ⟨some "logs/emails", 0, fun _ => "cafebabe", "mail.notthenet.local"⟩
      ["hello world"] (by simp) (by decide)).1 ⟨"logs/emails", rfl⟩ (by decide),
   (C6_smtp_data_saves_one
      ⟨none, 0, fun _ => "cafebabe", "mail.notthenet.local"⟩
      ["hello world"] (by simp) (by decide)).2.1 rfl⟩

/-! ## Theorems for C7 and C8 (iptables manager) -/

theorem serviceRules_shape (chain : String) (sp : List (String × List PyVal)) :
    ∀ r ∈ serviceRules chain sp, ∃ proto p, r = mkServiceRule chain proto p := by
  intro r hr
  simp only [serviceRules, List.mem_flatMap, List.mem_filterMap] at hr
  obtain ⟨pp, _, port, _, hmap⟩ := hr
  obtain ⟨p, _, hp⟩ := Option.map_eq_some'.mp hmap
  exact ⟨pp.1, p, hp.symm⟩

theorem excludeRules_shape (chain : String) (ex : List PyVal) :
    ∀ r ∈ excludeRules chain ex, ∃ p, r = mkExcludeRule chain p := by
  intro r hr
  simp only [excludeRules, List.mem_filterMap] at hr
  obtain ⟨e, _, hmap⟩ := hr
  obtain ⟨p, _, hp⟩ := Option.map_eq_some'.mp hmap
  exact ⟨p, hp.symm⟩

theorem catchRules_shape (chain : String) (cp : PyVal) :
    ∀ r ∈ catchRules chain cp, ∃ p, r = mkCatchAllRule chain p := by
  intro r hr
  unfold catchRules at hr
  rcases hv : validate_port cp with _ | p
  · rw [hv] at hr
    simp at hr
  · rw [hv] at hr
    simp at hr
    exact ⟨p, hr⟩

theorem catchRules_len (chain : String) (cp : PyVal) :
    (catchRules chain cp).length ≤ 1 := by
  unfold catchRules
  rcases validate_port cp with _ | p <;> simp

theorem mkServiceRule_tagged (chain proto : String) (p : Int) :
    ∃ pre, mkServiceRule chain proto p =
      pre ++ ["-m", "comment", "--comment", RULE_COMMENT] :=
  ⟨["-t", "nat", "-A", chain, "-p", proto, "--dport", toString p,
    "-j", "REDIRECT", "--to-ports", toString p], rfl⟩

theorem mkExcludeRule_tagged (chain : String) (p : Int) :
    ∃ pre, mkExcludeRule chain p =
      pre ++ ["-m", "comment", "--comment", RULE_COMMENT] :=
  ⟨["-t", "nat", "-A", chain, "-p", "tcp", "--dport", toString p,
    "-j", "RETURN"], rfl⟩

theorem mkCatchAllRule_tagged (chain : String) (p : Int) :
    ∃ pre, mkCatchAllRule chain p =
      pre ++ ["-m", "comment", "--comment", RULE_COMMENT] :=
  ⟨["-t", "nat", "-A", chain, "-p", "tcp",
    "-j", "REDIRECT", "--to-ports", toString p], rfl⟩

theorem addSeq_subset (env : IPTEnv) :
    ∀ (rules : List IPTRule) (k : Nat), ∀ r ∈ (addSeq env rules k).1, r ∈ rules := by
  intro rules
  induction rules with
  | nil => intro k r hr; simp [addSeq] at hr
  | cons a rs ih =>
    intro k r hr
    by_cases h : env.addOk k
    · simp only [addSeq, h, if_true] at hr
      rcases List.mem_cons.mp hr with rfl | hr
      · exact List.mem_cons_self _ _
      · exact List.mem_cons_of_mem _ (ih (k + 1) r hr)
    · simp only [addSeq, h, if_false] at hr
      exact List.mem_cons_of_mem _ (ih (k + 1) r hr)

theorem apply_rules_attempted (env : IPTEnv) (st : IPTState)
    (sp : List (String × List PyVal)) (cp : PyVal) (ex : List PyVal) :
    (apply_rules env st sp cp ex).2.2 = [] ∨
    (apply_rules env st sp cp ex).2.2 =
      serviceRules (iptChain st) sp ++ excludeRules (iptChain st) ex ++
        catchRules (iptChain st) cp := by
  unfold apply_rules
  split
  · exact Or.inl rfl
  split
  · exact Or.inl rfl
  split
  · exact Or.inl rfl
  split
  · exact Or.inl rfl
  · exact Or.inr rfl

theorem apply_rules_applied (env : IPTEnv) (st : IPTState)
    (sp : List (String × List PyVal)) (cp : PyVal) (ex : List PyVal) :
    ∀ r ∈ (apply_rules env st sp cp ex).1.rules_applied,
      r ∈ st.rules_applied ∨ r ∈ (apply_rules env st sp cp ex).2.2 := by
  intro r
  unfold apply_rules
  split
  · exact Or.inl
  split
  · exact Or.inl
  split
  · exact Or.inl
  split
  · exact Or.inl
  · intro hr
    simp only [List.append_assoc, List.mem_append] at hr
    rcases hr with hr | hr | hr | hr
    · exact Or.inl hr
    · exact Or.inr (by
        simp only [List.append_assoc, List.mem_append]
        exact Or.inl (addSeq_subset env _ _ r hr))
    · exact Or.inr (by
        simp only [List.append_assoc, List.mem_append]
        exact Or.inr (Or.inl (addSeq_subset env _ _ r hr)))
    · exact Or.inr (by
        simp only [List.append_assoc, List.mem_append]
        exact Or.inr (Or.inr (addSeq_subset env _ _ r hr)))

/-- C7: every rule `apply_rules` attempts to add (and so every rule it
tracks as added) carries the `NOTTHENET` comment tag, and the attempted
sequence decomposes as service rules, then exclusion pass-through rules,
then at most one final catch-all redirect — so every exclusion rule is
appended to the chain before the catch-all. -/
theorem C7_apply_rules_tagged_and_ordered (env : IPTEnv) (st : IPTState)
    (sp : List (String × List PyVal)) (cp : PyVal) (ex : List PyVal) :
    (∀ r ∈ (apply_rules env st sp cp ex).2.2,
      ∃ pre, r = pre ++ ["-m", "comment", "--comment", RULE_COMMENT]) ∧
    (∀ r ∈ (apply_rules env st sp cp ex).1.rules_applied,
      r ∈ st.rules_applied ∨ r ∈ (apply_rules env st sp cp ex).2.2) ∧
    (∃ svcR exclR catchR,
      (apply_rules env st sp cp ex).2.2 = svcR ++ exclR ++ catchR ∧
      (∀ r ∈ svcR, ∃ proto p, r = mkServiceRule (iptChain st) proto p) ∧
      (∀ r ∈ exclR, ∃ p, r = mkExcludeRule (iptChain st) p) ∧
      (∀ r ∈ catchR, ∃ p, r = mkCatchAllRule (iptChain st) p) ∧
      catchR.length ≤ 1) := by
  have hdec : ∀ r ∈ serviceRules (iptChain st) sp ++ excludeRules (iptChain st) ex ++
      catchRules (iptChain st) cp,
      ∃ pre, r = pre ++ ["-m", "comment", "--comment", RULE_COMMENT] := by
    intro r hr
    simp only [List.append_assoc, List.mem_append] at hr
    rcases hr with hr | hr | hr
    · obtain ⟨proto, p, rfl⟩ := serviceRules_shape _ _ r hr
      exact mkServiceRule_tagged _ _ _
    · obtain ⟨p, rfl⟩ := excludeRules_shape _ _ r hr
      exact mkExcludeRule_tagged _ _
    · obtain ⟨p, rfl⟩ := catchRules_shape _ _ r hr
      exact mkCatchAllRule_tagged _ _
  rcases apply_rules_attempted env st sp cp ex with hatt | hatt
  · refine ⟨fun r hr => absurd hr (by simp [hatt]), apply_rules_applied env st sp cp ex,
      [], [], [], by simp [hatt], by simp, by simp, by simp, by simp⟩
  · refine ⟨fun r hr => hdec r (hatt ▸ hr), apply_rules_applied env st sp cp ex,
      serviceRules (iptChain st) sp, excludeRules (iptChain st) ex,
      catchRules (iptChain st) cp, hatt,
      serviceRules_shape _ _, excludeRules_shape _ _, catchRules_shape _ _,
      catchRules_len _ _⟩

/-- C7 (witness): a concrete run (root, everything succeeding, one service
port, one exclusion, one catch-all) — the theorem applied to the exclusion
rule of the attempted list yields its tag decomposition. -/
theorem C7_apply_rules_tagged_and_ordered_witness :
    ∃ pre, (["-t", "nat", "-A", "OUTPUT", "-p", "tcp", "--dport", "22",
        "-j", "RETURN", "-m", "comment", "--comment", "NOTTHENET"] : IPTRule) =
      pre ++ ["-m", "comment", "--comment", RULE_COMMENT] :=
  (C7_apply_rules_tagged_and_ordered ⟨true, true, true, true, true, fun _ => true⟩
      ⟨true, "eth0", "127.0.0.1", "loopback", [], false⟩
      [("tcp", [PyVal.vInt 80])] (PyVal.vInt 9999) [PyVal.vInt 22]).1
    _ (by decide)

/-- C8 (counterexample): a run in which `apply_rules` (as root) added rules,
followed by `remove_rules` after privileges were dropped — `remove_rules`
refuses (`not root`), neither restores nor deletes, and leaves the tracked
list non-empty, contradicting the claim that the tracked list is empty
afterwards in every case. -/
theorem C8_counterexample :
    ((apply_rules ⟨true, true, true, true, true, fun _ => true⟩
        ⟨true, "eth0", "127.0.0.1", "loopback", [], false⟩
        [("tcp", [PyVal.vInt 80])] (PyVal.vInt 9999) []).1.rules_applied ≠ []) ∧
    (remove_rules ⟨false, true, true, true, true, fun _ => true⟩
        (apply_rules ⟨true, true, true, true, true, fun _ => true⟩
          ⟨true, "eth0", "127.0.0.1", "loopback", [], false⟩
          [("tcp", [PyVal.vInt 80])] (PyVal.vInt 9999) []).1).2 =
      RemoveAction.notRoot ∧
    (remove_rules ⟨false, true, true, true, true, fun _ => true⟩
        (apply_rules ⟨true, true, true, true, true, fun _ => true⟩
          ⟨true, "eth0", "127.0.0.1", "loopback", [], false⟩
          [("tcp", [PyVal.vInt 80])] (PyVal.vInt 9999) []).1).1.rules_applied ≠ [] := by
  decide

/-- C8 (amended): whenever the tracked rule list is non-empty and the
process still has root privileges, `remove_rules` restores the snapshot
when one was captured and the restore succeeds, and otherwise deletes each
tracked rule individually in reverse order of addition; in both cases the
tracked list is empty afterwards.  Without root privileges it refuses and
leaves the list unchanged. -/
theorem C8_remove_rules_behaviour (env : IPTEnv) (st : IPTState)
    (hne : st.rules_applied ≠ []) :
    (env.isRoot = true →
      (st.saved = true → env.restoreOk = true →
        remove_rules env st = ({ st with rules_applied := [] },
          RemoveAction.restored)) ∧
      ((st.saved = false ∨ env.restoreOk = false) →
        remove_rules env st = ({ st with rules_applied := [] },
          RemoveAction.deleted st.rules_applied.reverse))) ∧
    (env.isRoot = false →
      remove_rules env st = (st, RemoveAction.notRoot)) := by
  constructor
  · intro hroot
    constructor
    · intro hs hr
      unfold remove_rules
      rw [if_neg hne, if_neg (by simp [hroot]), if_pos (by simp [hs, hr])]
    · intro h
      unfold remove_rules
      rw [if_neg hne, if_neg (by simp [hroot]), if_neg ?_]
      rcases h with h | h <;> simp [h]
  · intro hroot
    unfold remove_rules
    rw [if_neg hne, if_pos (by simp [hroot])]

/-- C8 (witness): with one tracked rule — root with a snapshot restores and
clears; root without a snapshot deletes the reversed list and clears; no
root refuses. -/
theorem C8_remove_rules_behaviour_witness :
    (remove_rules ⟨true, true, true, true, true, fun _ => true⟩
        ⟨true, "eth0", "127.0.0.1", "loopback", [["-A", "OUTPUT"]], true⟩ =
      (⟨true, "eth0", "127.0.0.1", "loopback", [], true⟩,
       RemoveAction.restored)) ∧
    (remove_rules ⟨true, true, true, true, true, fun _ => true⟩
        ⟨true, "eth0", "127.0.0.1", "loopback", [["-A", "OUTPUT"]], false⟩ =
      (⟨true, "eth0", "127.0.0.1", "loopback", [], false⟩,
       RemoveAction.deleted [["-A", "OUTPUT"]])) ∧
    (remove_rules ⟨false, true, true, true, true, fun _ => true⟩
        ⟨true, "eth0", "127.0.0.1", "loopback", [["-A", "OUTPUT"]], true⟩ =
      (⟨true, "eth0", "127.0.0.1", "loopback", [["-A", "OUTPUT"]], true⟩,
       RemoveAction.notRoot)) :=
  ⟨((C8_remove_rules_behaviour ⟨true, true, true, true, true, fun _ => true⟩
      ⟨true, "eth0", "127.0.0.1", "loopback", [["-A", "OUTPUT"]], true⟩
      (by decide)).1 rfl).1 rfl rfl,
   ((C8_remove_rules_behaviour ⟨true, true, true, true, true, fun _ => true⟩
      ⟨true, "eth0", "127.0.0.1", "loopback", [["-A", "OUTPUT"]], false⟩
      (by decide)).1 rfl).2 (Or.inl rfl),
   (C8_remove_rules_behaviour ⟨false, true, true, true, true, fun _ => true⟩
      ⟨true, "eth0", "127.0.0.1", "loopback", [["-A", "OUTPUT"]], true⟩
      (by decide)).2 rfl⟩

/-- C3 (witness of the amended bound): concrete instantiation at an input
containing a CR with maximum length 5. -/
theorem C3_sanitize_output_safe_and_bounded_witness :
    '\r' ∉ (sanitize_log_string "ab\rcd" 5).data ∧
    hasAnsiSeq (sanitize_log_string "ab\rcd" 5).data = false ∧
    (sanitize_log_string "ab\rcd" 5).length ≤ 5 + 14 :=
  ⟨(C3_sanitize_output_safe_and_bounded "ab\rcd" 5).1.1,
   (C3_sanitize_output_safe_and_bounded "ab\rcd" 5).2.1,
   (C3_sanitize_output_safe_and_bounded "ab\rcd" 5).2.2⟩

/-- C9 (witness): concrete instantiation — after a successful start on the
empty config, `dns` is a status key (it started since the last stop), and
appending a `stop` empties the status map. -/
theorem C9_status_keys_iff_started_witness :
    ("dns" ∈ (smStatus (fun _ => true)
        (smRun [SMOp.opStart envW []])).map Prod.fst ↔
      "dns" ∈ startedSinceStop [SMOp.opStart envW []]) ∧
    smStatus (fun _ => true)
      (smRun ([SMOp.opStart envW []] ++ [SMOp.opStop])) = [] :=
  ⟨(C9_status_keys_iff_started [SMOp.opStart envW []] (fun _ => true)).1 "dns",
   (C9_status_keys_iff_started [SMOp.opStart envW []] (fun _ => true)).2⟩
